import Mathlib

/-!
Verification of the chart/report assembly pipeline of project_telo.

The development shallowly embeds the two dashboard classes of the repository:
`StaticDashboardGenerator` (src/generate_static_dashboard.py) and
`TelegramAnalysisDashboard` (src/telegram_analysis_dashboard.py).

Modelling conventions:
- a pandas DataFrame is a list of named columns of cells, in column order;
- a JSON summary document is a structure whose optional keys are `Option`
  fields, and whose mappings are association lists in key insertion order
  (Python dicts preserve insertion order);
- a plotly figure is a `Chart` value holding the data series handed to the
  charting call; the constructor `Chart.empty` embeds the empty string that
  a builder returns when its input is absent;
- Python methods that mutate `self` are state passing functions
  `GenState -> GenState × result`;
- a datetime value produced by `pd.to_datetime` on a string `s` is embedded
  as `Cell.dt s`, and the `.dt.date` projection as `Cell.date` of the date
  part of `s`.
-/

namespace ProjectTelo

/-! ### String helpers

Python `sorted` on the string keys of a JSON object compares strings
lexicographically by code point; `lexLe`/`strLe` embed that comparison.
-/

/-- Lexicographic comparison of character lists by code point, as Python
string comparison behaves. -/
def lexLe : List Char → List Char → Bool
  | [], _ => true
  | _ :: _, [] => false
  | a :: as, b :: bs =>
    if a < b then true else if b < a then false else lexLe as bs

/-- Python string less-or-equal. -/
def strLe (a b : String) : Bool := lexLe a.data b.data

/-- Stable insertion of one element into a list sorted by `le`. -/
def insertLe (le : α → α → Bool) (x : α) : List α → List α
  | [] => [x]
  | y :: ys => if le x y then x :: y :: ys else y :: insertLe le x ys

/-- Insertion sort by `le`; embeds Python `sorted` (keys here are distinct,
so stability questions do not arise). -/
def sortLe (le : α → α → Bool) : List α → List α
  | [] => []
  | x :: xs => insertLe le x (sortLe le xs)

/-- First-occurrence deduplication, as pandas groupby collects group keys. -/
def dedupFirstAux [DecidableEq α] : List α → List α → List α
  | [], _ => []
  | x :: xs, seen =>
    if x ∈ seen then dedupFirstAux xs seen else x :: dedupFirstAux xs (x :: seen)

/-- First-occurrence deduplication of a list. -/
def dedupFirst [DecidableEq α] (l : List α) : List α := dedupFirstAux l []

/-- Python `s.split("; ")` on the character list of `s`. -/
def splitSemiSp : List Char → List (List Char)
  | [] => [[]]
  | ';' :: ' ' :: rest => [] :: splitSemiSp rest
  | c :: rest =>
    match splitSemiSp rest with
    | [] => [[c]]
    | h :: t => (c :: h) :: t

/-- Python `s.split("; ")`. -/
def pySplitSemi (s : String) : List String :=
  (splitSemiSp s.data).map (fun cs => String.mk cs)

/-- Whitespace test used by Python `str.strip`. -/
def isPySpace (c : Char) : Bool := c = ' ' || c = '\t' || c = '\n' || c = '\r'

/-- Python `s.strip()`. -/
def pyStrip (s : String) : String :=
  String.mk (((s.data.dropWhile isPySpace).reverse.dropWhile isPySpace).reverse)

/-- Date part of a datetime string: the prefix before the time separator.
Embeds the `.dt.date` projection on a datetime parsed from `s`. -/
def datePart (s : String) : String :=
  String.mk (s.data.takeWhile (fun c => c ≠ ' ' && c ≠ 'T'))

/-! ### The tabular dataset (pandas DataFrame) -/

/-- One cell of the tabular dataset. `dt s` is the datetime parsed from the
string `s`; `date s` is a plain date with ISO text `s`. -/
inductive Cell where
  | str (s : String)
  | num (n : Int)
  | dt (s : String)
  | date (s : String)
  | bool (b : Bool)
deriving DecidableEq, Repr

/-- A DataFrame: named columns of cells, in column order. -/
structure DataFrame where
  data : List (String × List Cell)
deriving DecidableEq, Repr

/-- Column names, in order (`df.columns`). -/
def DataFrame.columns (df : DataFrame) : List String := df.data.map Prod.fst

/-- Column access (`df[c]`), `none` when the column is absent. -/
def DataFrame.getCol (df : DataFrame) (c : String) : Option (List Cell) :=
  df.data.lookup c

/-- Column assignment (`df[c] = col`): replaces an existing column in place,
appends a new column at the end otherwise, as pandas does. -/
def DataFrame.setCol (df : DataFrame) (c : String) (col : List Cell) : DataFrame :=
  if (df.data.lookup c).isSome then
    ⟨df.data.map (fun p => if p.1 = c then (c, col) else p)⟩
  else
    ⟨df.data ++ [(c, col)]⟩

/-- Embeds `pd.api.types.is_datetime64_any_dtype` on a column: the column
holds datetime values. -/
def isDatetimeAnyDtype (col : List Cell) : Bool :=
  col.all fun c => match c with | .dt _ => true | _ => false

/-- Embeds `pd.to_datetime` applied to a column of date strings. -/
def toDatetime (col : List Cell) : List Cell :=
  col.map fun c =>
    match c with
    | .str s => .dt s
    | .date s => .dt s
    | c => c

/-- The ISO date string of a cell, used as grouping key for the daily
message counts (`.dt.date` followed by `groupby`). -/
def cellDateStr : Cell → String
  | .dt s => datePart s
  | .str s => datePart s
  | .date s => s
  | _ => ""

/-- Embeds `groupby(keys).size()` over date keys: one row per distinct key,
with its multiplicity, keys sorted ascending as pandas groupby sorts them. -/
def dailyCounts (keys : List String) : List (String × Nat) :=
  (sortLe strLe (dedupFirst keys)).map (fun k => (k, keys.count k))

/-- Lexicographic comparison of string pairs. -/
def pairLe (a b : String × String) : Bool :=
  if a.1 = b.1 then strLe a.2 b.2 else strLe a.1 b.1

/-- Embeds `groupby([date, category]).size()`: one row per distinct pair with
its multiplicity, pairs sorted ascending. -/
def groupCounts2 (l : List (String × String)) : List (String × String × Nat) :=
  (sortLe pairLe (dedupFirst l)).map (fun k => (k.1, k.2, l.count k))

/-! ### The summary document -/

/-- The required `analysis_summary` object of the summary JSON. -/
structure AnalysisSummary where
  total_messages_analyzed : Nat
  relevant_messages_found : Nat
  relevance_rate : ℚ
deriving DecidableEq, Repr

/-- The optional `engagement_analysis` object of the summary JSON. -/
structure EngagementAnalysis where
  viral_messages : Nat
  average_views : ℚ
  average_forwards : ℚ
  max_views : Nat
  high_engagement_messages : Nat
deriving DecidableEq, Repr

/-- A name-to-count JSON mapping, in key insertion order. -/
abbrev Dist := List (String × Nat)

/-- The summary JSON document. Optional top-level keys are `Option` fields;
a `none` field embeds the key being absent from the document. -/
structure SummaryDocument where
  analysis_summary : AnalysisSummary
  category_distribution : Option Dist
  subcategory_distribution : Option Dist
  intensity_distribution : Option Dist
  engagement_analysis : Option EngagementAnalysis
  top_linguistic_markers : Option Dist
  content_with_media : Option Nat
  media_distribution : Option Dist
deriving DecidableEq, Repr

/-! ### Charts and generator state -/

/-- The data series handed to a charting call. `empty` embeds the empty
string returned by a builder whose input is absent. For the scatter and
histogram figures built directly from the DataFrame, the relevant column
lookups are stored. -/
inductive Chart where
  | empty
  | bar (x : List String) (y : List Int) (title : String)
  | barH (x : List Int) (y : List String) (title : String)
  | pie (values : List Int) (names : List String) (title : String)
  | scatter (x y colorBy : Option (List Cell)) (title : String)
  | line (points : List (String × Nat)) (title : String)
  | histogram (x : Option (List Cell)) (nbins : Nat) (title : String)
  | area (points : List (String × String × Nat)) (title : String)
deriving DecidableEq, Repr

/-- The mutable state of either dashboard object: `self.df` and
`self.summary_data`, both `None` before a successful load. -/
structure GenState where
  df : Option DataFrame
  summary_data : Option SummaryDocument
deriving DecidableEq, Repr

namespace StaticDashboardGenerator

/-- Embeds `StaticDashboardGenerator.load_data`. The CSV parse result and
the JSON parse result are passed as `Option` values (`none` embeds any load
exception: missing file, malformed rows, malformed document). The body
assigns `self.df` before attempting the JSON load, exactly as the source
does inside its try block. -/
def load_data (st : GenState) (csv : Option DataFrame)
    (js : Option SummaryDocument) : GenState × Bool :=
  match csv with
  | none => (st, false)
  | some d =>
    let st1 := { st with df := some d }
    match js with
    | none => (st1, false)
    | some sd => ({ st1 with summary_data := some sd }, true)

/-- Embeds `create_overview_chart`: four scalar metrics as a bar chart. -/
def create_overview_chart (st : GenState) : GenState × Chart :=
  match st.summary_data with
  | none => (st, .empty)
  | some sd =>
    let summary := sd.analysis_summary
    let viral := (sd.engagement_analysis.map (fun e => e.viral_messages)).getD 0
    let high := (sd.engagement_analysis.map (fun e => e.high_engagement_messages)).getD 0
    let metrics : List (String × Int) :=
      [("Total Messages", (summary.total_messages_analyzed : Int)),
       ("Relevant Messages", (summary.relevant_messages_found : Int)),
       ("Viral Messages", (viral : Int)),
       ("High Engagement", (high : Int))]
    (st, .bar (metrics.map Prod.fst) (metrics.map Prod.snd)
      "📊 Analysis Overview Metrics")

/-- Embeds `create_category_chart`: pie over `category_distribution`. -/
def create_category_chart (st : GenState) : GenState × Chart :=
  match st.summary_data with
  | none => (st, .empty)
  | some sd =>
    match sd.category_distribution with
    | none => (st, .empty)
    | some categories =>
      (st, .pie (categories.map (fun p => (p.2 : Int))) (categories.map Prod.fst)
        "📈 Anti-Gender Content Categories Distribution")

/-- Embeds `create_subcategory_chart`: horizontal bar over the first 10
entries of `subcategory_distribution` (`dict(list(subcats.items())[:10])`). -/
def create_subcategory_chart (st : GenState) : GenState × Chart :=
  match st.summary_data with
  | none => (st, .empty)
  | some sd =>
    match sd.subcategory_distribution with
    | none => (st, .empty)
    | some subcats =>
      let top_subcats := subcats.take 10
      (st, .barH (top_subcats.map (fun p => (p.2 : Int))) (top_subcats.map Prod.fst)
        "🔍 Top 10 Subcategories")

/-- Embeds `create_intensity_chart`: bar over `sorted(intensity.keys())`,
which sorts the JSON string keys lexicographically, each key `k` labelled
`Level k` and paired with its count. -/
def create_intensity_chart (st : GenState) : GenState × Chart :=
  match st.summary_data with
  | none => (st, .empty)
  | some sd =>
    match sd.intensity_distribution with
    | none => (st, .empty)
    | some intensity =>
      let ks := sortLe strLe (intensity.map Prod.fst)
      let levels := ks.map (fun k => "Level " ++ k)
      let counts := ks.map (fun k => (((intensity.lookup k).getD 0 : Nat) : Int))
      (st, .bar levels counts "⚡ Message Intensity Distribution")

/-- Embeds `create_linguistic_markers_chart`: horizontal bar over the first
15 entries of `top_linguistic_markers`. -/
def create_linguistic_markers_chart (st : GenState) : GenState × Chart :=
  match st.summary_data with
  | none => (st, .empty)
  | some sd =>
    match sd.top_linguistic_markers with
    | none => (st, .empty)
    | some markers =>
      let top_markers := markers.take 15
      (st, .barH (top_markers.map (fun p => (p.2 : Int))) (top_markers.map Prod.fst)
        "💬 Top 15 Linguistic Markers")

/-- Embeds `create_engagement_chart`: Views vs Forwards scatter colored by
Intensity_Score. -/
def create_engagement_chart (st : GenState) : GenState × Chart :=
  match st.df with
  | none => (st, .empty)
  | some df =>
    (st, .scatter (df.getCol "Views") (df.getCol "Forwards")
      (df.getCol "Intensity_Score") "🚀 Views vs Forwards Relationship")

/-- Embeds `create_media_chart`: pie of `[content_with_media,
relevant_messages_found - content_with_media]`, with
`content_with_media` read through `.get(..., 0)`. -/
def create_media_chart (st : GenState) : GenState × Chart :=
  match st.summary_data with
  | none => (st, .empty)
  | some sd =>
    let media_count := ((sd.content_with_media.getD 0 : Nat) : Int)
    let total_relevant := ((sd.analysis_summary.relevant_messages_found : Nat) : Int)
    (st, .pie [media_count, total_relevant - media_count] ["With Media", "Text Only"]
      "📸 Media Content Distribution")

/-- Embeds `create_timeline_chart`. When the Date column is not already
datetime typed, the source reassigns `self.df["Date"] =
pd.to_datetime(self.df["Date"])`, mutating the stored DataFrame; the daily
counts are then grouped from the converted column. -/
def create_timeline_chart (st : GenState) : GenState × Chart :=
  match st.df with
  | none => (st, .empty)
  | some df =>
    if "Date" ∈ df.columns then
      let dc := (df.getCol "Date").getD []
      let df1 := if isDatetimeAnyDtype dc then df else df.setCol "Date" (toDatetime dc)
      let dc1 := (df1.getCol "Date").getD []
      ({ st with df := some df1 },
        .line (dailyCounts (dc1.map cellDateStr)) "📅 Daily Message Volume Timeline")
    else
      (st, .empty)

/-- Embeds `create_views_distribution_chart`: histogram of Views with a
fixed bin count of 30. -/
def create_views_distribution_chart (st : GenState) : GenState × Chart :=
  match st.df with
  | none => (st, .empty)
  | some df =>
    (st, .histogram (df.getCol "Views") 30 "👀 Views Distribution Analysis")

/-- The fixed summary literal of `load_sample_data`, copied field by field
from the source. -/
def sampleSummaryData : SummaryDocument where
  analysis_summary :=
    { total_messages_analyzed := 12000
      relevant_messages_found := 1315
      relevance_rate := 10.96 }
  category_distribution := some
    [("LGBTQ+ Hate Speech & Anti-Rights Rhetoric", 1245),
     ("Masculinity & Gender Backlash", 35),
     ("Digital Disinformation & Anti-Gender Narratives", 30),
     ("SRHR & Moral Panic", 5)]
  subcategory_distribution := some
    [("3.religious_opposition", 1280),
     ("2.emasculation", 35),
     ("1.cultural_authenticity", 30),
     ("4.traditional_family", 25),
     ("5.imported_ideology", 20),
     ("6.moral_corruption", 15),
     ("7.family_destruction", 12),
     ("8.children_targeting", 8)]
  intensity_distribution := some [("1", 1312), ("2", 3)]
  engagement_analysis := some
    { viral_messages := 1129
      average_views := 8547
      average_forwards := 2.1
      max_views := 89000
      high_engagement_messages := 456 }
  top_linguistic_markers := some
    [("sin", 977), ("immoral", 156), ("abomination", 89), ("against God", 67),
     ("imported", 45), ("our culture", 34), ("beta male", 23),
     ("emasculation", 12), ("traditional values", 45), ("family values", 38),
     ("western influence", 29), ("moral decay", 25), ("unnatural", 67),
     ("corruption", 43), ("destruction", 31)]
  content_with_media := some 700
  media_distribution := some [("photo", 450), ("document", 250)]

/-- Embeds `load_sample_data`. The summary document is the fixed literal;
the accompanying DataFrame is drawn from random distributions in the source,
so the generated frame is passed in as a parameter. The method always
reports success. -/
def load_sample_data (st : GenState) (generated : DataFrame) : GenState :=
  let _ := st
  { df := some generated, summary_data := some sampleSummaryData }

/-- The assembled static report: the four overview metric values of the
metrics grid, and the nine chart sections in page order. -/
structure Report where
  total_messages_analyzed : Nat
  relevant_messages_found : Nat
  relevance_rate : ℚ
  viral_messages : Nat
  overview_chart : Chart
  category_chart : Chart
  subcategory_chart : Chart
  intensity_chart : Chart
  linguistic_chart : Chart
  engagement_chart : Chart
  media_chart : Chart
  timeline_chart : Chart
  views_chart : Chart
deriving DecidableEq, Repr

/-- Embeds `generate_html_dashboard`. On load failure the method returns
False, embedded as `none`; otherwise the nine builders run in source order
against the shared mutable state, and the metrics grid is then formatted
from `self.summary_data` (the unreachable case where it is still absent
after a successful load embeds the KeyError that the source would raise). -/
def generate_html_dashboard (st : GenState) (generated : DataFrame)
    (use_sample_data : Bool) (csv : Option DataFrame)
    (js : Option SummaryDocument) : Option Report :=
  match
    (match use_sample_data with
     | true => (load_sample_data st generated, true)
     | false => load_data st csv js) with
  | (_, false) => none
  | (st0, true) =>
    let r1 := create_overview_chart st0
    let r2 := create_category_chart r1.1
    let r3 := create_subcategory_chart r2.1
    let r4 := create_intensity_chart r3.1
    let r5 := create_linguistic_markers_chart r4.1
    let r6 := create_engagement_chart r5.1
    let r7 := create_media_chart r6.1
    let r8 := create_timeline_chart r7.1
    let r9 := create_views_distribution_chart r8.1
    match r9.1.summary_data with
    | none => none
    | some sd =>
      some
        { total_messages_analyzed := sd.analysis_summary.total_messages_analyzed
          relevant_messages_found := sd.analysis_summary.relevant_messages_found
          relevance_rate := sd.analysis_summary.relevance_rate
          viral_messages := (sd.engagement_analysis.map (fun e => e.viral_messages)).getD 0
          overview_chart := r1.2
          category_chart := r2.2
          subcategory_chart := r3.2
          intensity_chart := r4.2
          linguistic_chart := r5.2
          engagement_chart := r6.2
          media_chart := r7.2
          timeline_chart := r8.2
          views_chart := r9.2 }

end StaticDashboardGenerator

namespace TelegramAnalysisDashboard

/-- Embeds `TelegramAnalysisDashboard.load_data`, structurally identical to
the static generator loader: `self.df` is assigned before the JSON load is
attempted. -/
def load_data (st : GenState) (csv : Option DataFrame)
    (js : Option SummaryDocument) : GenState × Bool :=
  match csv with
  | none => (st, false)
  | some d =>
    let st1 := { st with df := some d }
    match js with
    | none => (st1, false)
    | some sd => ({ st1 with summary_data := some sd }, true)

/-- Embeds `create_category_distribution`: when the key is present the page
emits a pie and a bar figure over `category_distribution`; otherwise it
emits no figure. -/
def create_category_distribution (st : GenState) : GenState × List Chart :=
  match st.summary_data with
  | none => (st, [])
  | some sd =>
    match sd.category_distribution with
    | none => (st, [])
    | some categories =>
      (st,
        [Chart.pie (categories.map (fun p => (p.2 : Int))) (categories.map Prod.fst)
          "Distribution of Anti-Gender Content Categories",
         Chart.bar (categories.map Prod.fst) (categories.map (fun p => (p.2 : Int)))
          "Message Count by Category"])

/-- Embeds the figure part of `create_intensity_analysis`: the same
`sorted(intensity.keys())` presentation as the static intensity builder. -/
def create_intensity_analysis (st : GenState) : GenState × List Chart :=
  match st.summary_data with
  | none => (st, [])
  | some sd =>
    match sd.intensity_distribution with
    | none => (st, [])
    | some intensity =>
      let ks := sortLe strLe (intensity.map Prod.fst)
      let levels := ks.map (fun k => "Level " ++ k)
      let counts := ks.map (fun k => (((intensity.lookup k).getD 0 : Nat) : Int))
      (st, [Chart.bar levels counts "Message Intensity Distribution"])

/-- Expansion of one row for the category-over-time area chart: the
`Categories` cell is split on the literal separator and each entry paired
with the row date, rows with a falsy cell contributing nothing. -/
def expandRow (p : String × Cell) : List (String × String) :=
  match p.2 with
  | .str s => if s = "" then [] else (pySplitSemi s).map (fun cat => (p.1, pyStrip cat))
  | _ => []

/-- Embeds `create_temporal_analysis`. The source unconditionally converts
the Date column with `pd.to_datetime` and then writes a derived `Date_Only`
column into the stored DataFrame, before grouping daily counts and, when a
`Categories` column exists, the per-category daily counts. -/
def create_temporal_analysis (st : GenState) : GenState × List Chart :=
  match st.df with
  | none => (st, [])
  | some df =>
    if "Date" ∈ df.columns then
      let dc := toDatetime ((df.getCol "Date").getD [])
      let df1 := df.setCol "Date" dc
      let dOnly := dc.map (fun c => Cell.date (cellDateStr c))
      let df2 := df1.setCol "Date_Only" dOnly
      let lineChart :=
        Chart.line (dailyCounts (dOnly.map cellDateStr))
          "Daily Anti-Gender Message Volume"
      let charts :=
        if "Categories" ∈ df2.columns then
          let catData :=
            ((dOnly.map cellDateStr).zip ((df2.getCol "Categories").getD [])).flatMap
              expandRow
          if catData.isEmpty then [lineChart]
          else
            [lineChart,
             Chart.area (groupCounts2 catData) "Category Distribution Over Time"]
        else [lineChart]
      ({ st with df := some df2 }, charts)
    else
      (st, [])

end TelegramAnalysisDashboard

/-! ### Concrete fixtures used by witnesses and counterexamples -/

/-- A summary document carrying only the required key, every optional key
absent. -/
def baseDoc : SummaryDocument where
  analysis_summary :=
    { total_messages_analyzed := 0
      relevant_messages_found := 0
      relevance_rate := 0 }
  category_distribution := none
  subcategory_distribution := none
  intensity_distribution := none
  engagement_analysis := none
  top_linguistic_markers := none
  content_with_media := none
  media_distribution := none

/-- A one-column DataFrame without a Date column. -/
def dfViewsOnly : DataFrame := ⟨[("Views", [Cell.num 150])]⟩

/-- A DataFrame whose Date column holds raw strings, as a frame loaded from
CSV does. -/
def dfDateStr : DataFrame :=
  ⟨[("Date", [Cell.str "2025-08-01 10:00:00"]), ("Views", [Cell.num 150])]⟩

/-- A DataFrame whose Date column is already datetime typed. -/
def dfDateDt : DataFrame := ⟨[("Date", [Cell.dt "2025-08-01 10:00:00"])]⟩

/-- Numeric value of a decimal digit string, used only to express the
numeric level order that the specification claims. -/
def digitsVal : List Char → Nat → Nat
  | [], acc => acc
  | c :: cs, acc => digitsVal cs (acc * 10 + (c.toNat - 48))

/-- Numeric value of a decimal digit string. -/
def strNumVal (s : String) : Nat := digitsVal s.data 0

/-- Modelled from the spec wording of the intensity builder contract:
levels sorted ascending by their numeric intensity value. Stated only to
be compared with the behaviour the code actually has. -/
def numericLevelSort (ks : List String) : List String :=
  sortLe (fun a b => decide (strNumVal a ≤ strNumVal b)) ks

/-- An intensity mapping with a multi digit level key. -/
def intensityTwoTen : Dist := [("2", 5), ("10", 7)]

/-- The category mapping of the spec test vector for the category chart. -/
def catAB : Dist := [("A", 3), ("B", 1)]

/-- A twenty entry linguistic marker mapping, matching the spec test vector
for the ranked marker builder. -/
def markers20 : Dist :=
  [("m01", 20), ("m02", 19), ("m03", 18), ("m04", 17), ("m05", 16),
   ("m06", 15), ("m07", 14), ("m08", 13), ("m09", 12), ("m10", 11),
   ("m11", 10), ("m12", 9), ("m13", 8), ("m14", 7), ("m15", 6),
   ("m16", 5), ("m17", 4), ("m18", 3), ("m19", 2), ("m20", 1)]

/-- A summary document with the media test vector of the spec:
700 messages with media out of 1315 relevant. -/
def mediaDoc700 : SummaryDocument :=
  { baseDoc with
    analysis_summary :=
      { total_messages_analyzed := 12000
        relevant_messages_found := 1315
        relevance_rate := 10.96 }
    content_with_media := some 700 }

/-! ### Order lemmas for the lexicographic key sort -/

theorem lexLe_total : ∀ (a b : List Char), lexLe a b = true ∨ lexLe b a = true
  | [], _ => .inl rfl
  | _ :: _, [] => .inr rfl
  | x :: xs, y :: ys => by
    rcases lt_trichotomy x y with h | h | h
    · left; simp [lexLe, h]
    · subst h
      rcases lexLe_total xs ys with h | h
      · left; simp [lexLe, lt_irrefl, h]
      · right; simp [lexLe, lt_irrefl, h]
    · right; simp [lexLe, h]

theorem lexLe_trans : ∀ (a b c : List Char),
    lexLe a b = true → lexLe b c = true → lexLe a c = true
  | [], _, _, _, _ => rfl
  | _ :: _, [], _, hab, _ => by simp [lexLe] at hab
  | _ :: _, _ :: _, [], _, hbc => by simp [lexLe] at hbc
  | x :: xs, y :: ys, z :: zs, hab, hbc => by
    simp only [lexLe] at hab hbc ⊢
    by_cases hxy : x < y
    · by_cases hyz : y < z
      · simp [lt_trans hxy hyz]
      · by_cases hzy : z < y
        · rw [if_neg hyz, if_pos hzy] at hbc; exact absurd hbc (by simp)
        · have hyzeq : y = z := le_antisymm (not_lt.mp hzy) (not_lt.mp hyz)
          subst hyzeq
          simp [hxy]
    · by_cases hyx : y < x
      · rw [if_neg hxy, if_pos hyx] at hab; exact absurd hab (by simp)
      · have hxyeq : x = y := le_antisymm (not_lt.mp hyx) (not_lt.mp hxy)
        subst hxyeq
        rw [if_neg hxy, if_neg hxy] at hab
        by_cases hxz : x < z
        · simp [hxz]
        · by_cases hzx : z < x
          · rw [if_neg hxz, if_pos hzx] at hbc; exact absurd hbc (by simp)
          · have hxzeq : x = z := le_antisymm (not_lt.mp hzx) (not_lt.mp hxz)
            subst hxzeq
            rw [if_neg hxz, if_neg hxz] at hbc ⊢
            exact lexLe_trans xs ys zs hab hbc

theorem strLe_total (a b : String) : strLe a b = true ∨ strLe b a = true :=
  lexLe_total a.data b.data

theorem strLe_trans (a b c : String) :
    strLe a b = true → strLe b c = true → strLe a c = true :=
  lexLe_trans a.data b.data c.data

theorem insertLe_perm (le : α → α → Bool) (x : α) (l : List α) :
    (insertLe le x l).Perm (x :: l) := by
  induction l with
  | nil => exact List.Perm.refl _
  | cons y ys ih =>
    unfold insertLe
    by_cases h : le x y
    · rw [if_pos h]
    · rw [if_neg h]
      exact (ih.cons y).trans (List.Perm.swap x y ys)

theorem sortLe_perm (le : α → α → Bool) (l : List α) : (sortLe le l).Perm l := by
  induction l with
  | nil => exact List.Perm.refl _
  | cons x xs ih =>
    exact (insertLe_perm le x (sortLe le xs)).trans (ih.cons x)

theorem insertLe_pairwise (le : α → α → Bool)
    (total : ∀ a b, le a b = true ∨ le b a = true)
    (tr : ∀ a b c, le a b = true → le b c = true → le a c = true)
    (x : α) (l : List α) (h : l.Pairwise (fun a b => le a b = true)) :
    (insertLe le x l).Pairwise (fun a b => le a b = true) := by
  induction l with
  | nil => simp [insertLe]
  | cons y ys ih =>
    rcases List.pairwise_cons.mp h with ⟨hy, hys⟩
    unfold insertLe
    by_cases hxy : le x y
    · rw [if_pos hxy]
      refine List.pairwise_cons.mpr ⟨?_, h⟩
      intro z hz
      rcases List.mem_cons.mp hz with hzy | hzys
      · exact hzy ▸ hxy
      · exact tr x y z hxy (hy z hzys)
    · rw [if_neg hxy]
      have hyx : le y x = true := (total x y).resolve_left hxy
      refine List.pairwise_cons.mpr ⟨?_, ih hys⟩
      intro z hz
      have hz2 : z ∈ x :: ys := (insertLe_perm le x ys).mem_iff.mp hz
      rcases List.mem_cons.mp hz2 with hzx | hzys
      · exact hzx ▸ hyx
      · exact hy z hzys

theorem sortLe_pairwise (le : α → α → Bool)
    (total : ∀ a b, le a b = true ∨ le b a = true)
    (tr : ∀ a b c, le a b = true → le b c = true → le a c = true)
    (l : List α) :
    (sortLe le l).Pairwise (fun a b => le a b = true) := by
  induction l with
  | nil => simp [sortLe]
  | cons x xs ih => exact insertLe_pairwise le total tr x (sortLe le xs) ih

/-! ### DataFrame lemmas -/

theorem lookup_map_replace (l : List (String × List Cell)) (n c : String)
    (col : List Cell) (h : c ≠ n) :
    (l.map (fun p => if p.1 = n then (n, col) else p)).lookup c = l.lookup c := by
  induction l with
  | nil => rfl
  | cons p t ih =>
    obtain ⟨k, v⟩ := p
    simp only [List.map_cons]
    by_cases hk : (k, v).1 = n
    · rw [if_pos hk]
      have hc : (c == n) = false := by simp [h]
      have hck : (c == k) = false := by simp only [Prod.fst] at hk; simp [hk ▸ h]
      simp [List.lookup, hc, hck, ih]
    · rw [if_neg hk]
      by_cases hck : c = k
      · simp [List.lookup, hck]
      · have hck2 : (c == k) = false := by simp [hck]
        simp [List.lookup, hck2, ih]

theorem lookup_append_single (l : List (String × List Cell)) (n c : String)
    (col : List Cell) (h : c ≠ n) :
    (l ++ [(n, col)]).lookup c = l.lookup c := by
  induction l with
  | nil =>
    have hc : (c == n) = false := by simp [h]
    simp [List.lookup, hc]
  | cons p t ih =>
    obtain ⟨k, v⟩ := p
    by_cases hck : c = k
    · simp [List.lookup, hck]
    · have hck2 : (c == k) = false := by simp [hck]
      simp [List.lookup, hck2, ih]

theorem setCol_getCol_ne (df : DataFrame) (n c : String) (col : List Cell)
    (h : c ≠ n) : (df.setCol n col).getCol c = df.getCol c := by
  unfold DataFrame.setCol DataFrame.getCol
  by_cases hs : (df.data.lookup n).isSome
  · rw [if_pos hs]
    exact lookup_map_replace df.data n c col h
  · rw [if_neg hs]
    exact lookup_append_single df.data n c col h

theorem setCol_columns (df : DataFrame) (n : String) (col : List Cell)
    (h : (df.data.lookup n).isSome) :
    (df.setCol n col).columns = df.columns := by
  unfold DataFrame.setCol DataFrame.columns
  rw [if_pos h]
  show (df.data.map _).map Prod.fst = df.data.map Prod.fst
  rw [List.map_map]
  refine List.map_congr_left ?_
  intro p _
  by_cases hp : p.1 = n
  · simp [hp]
  · simp [hp]

theorem lookup_isSome_of_mem_keys (l : List (String × List Cell)) (c : String)
    (h : c ∈ l.map Prod.fst) : (l.lookup c).isSome := by
  induction l with
  | nil => simp at h
  | cons p t ih =>
    obtain ⟨k, v⟩ := p
    simp only [List.map_cons] at h
    rcases List.mem_cons.mp h with hc | hc
    · simp [List.lookup, hc]
    · by_cases hck : c = k
      · simp [List.lookup, hck]
      · have hck2 : (c == k) = false := by simp [hck]
        have hstep : List.lookup c ((k, v) :: t) = List.lookup c t := by
          simp [List.lookup, hck2]
        rw [hstep]
        exact ih hc

theorem mem_columns_lookup (df : DataFrame) (c : String)
    (h : c ∈ df.columns) : (df.data.lookup c).isSome :=
  lookup_isSome_of_mem_keys df.data c h

/-! ### Frame lemmas: which builders leave the state untouched -/

namespace StaticDashboardGenerator

theorem create_overview_chart_state (st : GenState) :
    (create_overview_chart st).1 = st := by
  cases st with | mk d s => cases s <;> rfl

theorem create_category_chart_state (st : GenState) :
    (create_category_chart st).1 = st := by
  cases st with | mk d s =>
  cases s with
  | none => rfl
  | some sd => cases hc : sd.category_distribution <;> simp [create_category_chart, hc]

theorem create_subcategory_chart_state (st : GenState) :
    (create_subcategory_chart st).1 = st := by
  cases st with | mk d s =>
  cases s with
  | none => rfl
  | some sd => cases hc : sd.subcategory_distribution <;> simp [create_subcategory_chart, hc]

theorem create_intensity_chart_state (st : GenState) :
    (create_intensity_chart st).1 = st := by
  cases st with | mk d s =>
  cases s with
  | none => rfl
  | some sd => cases hc : sd.intensity_distribution <;> simp [create_intensity_chart, hc]

theorem create_linguistic_markers_chart_state (st : GenState) :
    (create_linguistic_markers_chart st).1 = st := by
  cases st with | mk d s =>
  cases s with
  | none => rfl
  | some sd => cases hc : sd.top_linguistic_markers <;> simp [create_linguistic_markers_chart, hc]

theorem create_engagement_chart_state (st : GenState) :
    (create_engagement_chart st).1 = st := by
  cases st with | mk d s => cases d <;> rfl

theorem create_media_chart_state (st : GenState) :
    (create_media_chart st).1 = st := by
  cases st with | mk d s => cases s <;> rfl

theorem create_views_distribution_chart_state (st : GenState) :
    (create_views_distribution_chart st).1 = st := by
  cases st with | mk d s => cases d <;> rfl

theorem create_timeline_chart_state_summary (st : GenState) :
    (create_timeline_chart st).1.summary_data = st.summary_data := by
  cases st with | mk d s =>
  cases d with
  | none => rfl
  | some df =>
    by_cases h : "Date" ∈ df.columns <;> simp [create_timeline_chart, h]

end StaticDashboardGenerator

namespace TelegramAnalysisDashboard

theorem create_category_distribution_state (st : GenState) :
    (create_category_distribution st).1 = st := by
  cases st with | mk d s =>
  cases s with
  | none => rfl
  | some sd => cases hc : sd.category_distribution <;> simp [create_category_distribution, hc]

theorem create_intensity_analysis_state (st : GenState) :
    (create_intensity_analysis st).1 = st := by
  cases st with | mk d s =>
  cases s with
  | none => rfl
  | some sd => cases hc : sd.intensity_distribution <;> simp [create_intensity_analysis, hc]

theorem create_temporal_analysis_state_summary (st : GenState) :
    (create_temporal_analysis st).1.summary_data = st.summary_data := by
  cases st with | mk d s =>
  cases d with
  | none => rfl
  | some df =>
    by_cases h : "Date" ∈ df.columns <;> simp [create_temporal_analysis, h]

end TelegramAnalysisDashboard

/-! ### Lemmas on the timeline and temporal builders -/

theorem mem_keys_of_lookup_isSome (l : List (String × List Cell)) (c : String)
    (h : (l.lookup c).isSome) : c ∈ l.map Prod.fst := by
  induction l with
  | nil => simp [List.lookup] at h
  | cons p t ih =>
    obtain ⟨k, v⟩ := p
    by_cases hck : c = k
    · simp [hck]
    · have hck2 : (c == k) = false := by simp [hck]
      have hstep : List.lookup c ((k, v) :: t) = List.lookup c t := by
        simp [List.lookup, hck2]
      rw [hstep] at h
      simp only [List.map_cons]
      exact List.mem_cons.mpr (Or.inr (ih h))

theorem create_timeline_chart_dt (st : GenState) (df : DataFrame)
    (dc : List Cell) (h1 : st.df = some df) (h2 : df.getCol "Date" = some dc)
    (h3 : isDatetimeAnyDtype dc = true) :
    StaticDashboardGenerator.create_timeline_chart st
      = (st, Chart.line (dailyCounts (dc.map cellDateStr))
          "📅 Daily Message Volume Timeline") := by
  obtain ⟨d0, s0⟩ := st
  have hd : d0 = some df := h1
  subst hd
  have hmem : "Date" ∈ df.columns :=
    mem_keys_of_lookup_isSome df.data "Date"
      (by rw [show df.data.lookup "Date" = some dc from h2]; rfl)
  simp [StaticDashboardGenerator.create_timeline_chart, hmem, h2, h3]

theorem create_timeline_chart_convert (st : GenState) (df : DataFrame)
    (dc : List Cell) (h1 : st.df = some df) (h2 : df.getCol "Date" = some dc)
    (h3 : isDatetimeAnyDtype dc = false) :
    (StaticDashboardGenerator.create_timeline_chart st).1
      = { st with df := some (df.setCol "Date" (toDatetime dc)) } := by
  obtain ⟨d0, s0⟩ := st
  have hd : d0 = some df := h1
  subst hd
  have hmem : "Date" ∈ df.columns :=
    mem_keys_of_lookup_isSome df.data "Date"
      (by rw [show df.data.lookup "Date" = some dc from h2]; rfl)
  simp [StaticDashboardGenerator.create_timeline_chart, hmem, h2, h3]

theorem create_timeline_chart_columns (st : GenState) (df : DataFrame)
    (h1 : st.df = some df) :
    (StaticDashboardGenerator.create_timeline_chart st).1.df.map DataFrame.columns
      = some df.columns := by
  by_cases hmem : "Date" ∈ df.columns
  · obtain ⟨dc, h2⟩ := Option.isSome_iff_exists.mp (mem_columns_lookup df "Date" hmem)
    by_cases h3 : isDatetimeAnyDtype dc
    · rw [create_timeline_chart_dt st df dc h1 h2 h3]
      rw [h1]
      rfl
    · rw [create_timeline_chart_convert st df dc h1 h2
        (Bool.not_eq_true _ ▸ eq_false_of_ne_true h3)]
      show some ((df.setCol "Date" (toDatetime dc)).columns) = some df.columns
      rw [setCol_columns df "Date" (toDatetime dc)
        (by rw [show df.data.lookup "Date" = some dc from h2]; rfl)]
  · obtain ⟨d0, s0⟩ := st
    have hd : d0 = some df := h1
    subst hd
    simp [StaticDashboardGenerator.create_timeline_chart, hmem]

theorem create_timeline_chart_other_cols (st : GenState) (df : DataFrame)
    (c : String) (h1 : st.df = some df) (hc : c ≠ "Date") :
    ((StaticDashboardGenerator.create_timeline_chart st).1.df.bind
      fun x => x.getCol c) = df.getCol c := by
  by_cases hmem : "Date" ∈ df.columns
  · obtain ⟨dc, h2⟩ := Option.isSome_iff_exists.mp (mem_columns_lookup df "Date" hmem)
    by_cases h3 : isDatetimeAnyDtype dc
    · rw [create_timeline_chart_dt st df dc h1 h2 h3]
      rw [h1]
      rfl
    · rw [create_timeline_chart_convert st df dc h1 h2
        (Bool.not_eq_true _ ▸ eq_false_of_ne_true h3)]
      simp only [Option.some_bind]
      exact setCol_getCol_ne df "Date" c (toDatetime dc) hc
  · obtain ⟨d0, s0⟩ := st
    have hd : d0 = some df := h1
    subst hd
    simp [StaticDashboardGenerator.create_timeline_chart, hmem]

theorem create_temporal_analysis_df (df : DataFrame)
    (s0 : Option SummaryDocument) (hmem : "Date" ∈ df.columns) :
    (TelegramAnalysisDashboard.create_temporal_analysis ⟨some df, s0⟩).1.df
      = some ((df.setCol "Date" (toDatetime ((df.getCol "Date").getD []))).setCol
          "Date_Only"
          ((toDatetime ((df.getCol "Date").getD [])).map
            (fun c => Cell.date (cellDateStr c)))) := by
  simp [TelegramAnalysisDashboard.create_temporal_analysis, hmem]

theorem create_temporal_analysis_other_cols (st : GenState) (df : DataFrame)
    (c : String) (h1 : st.df = some df) (hc1 : c ≠ "Date")
    (hc2 : c ≠ "Date_Only") :
    ((TelegramAnalysisDashboard.create_temporal_analysis st).1.df.bind
      fun x => x.getCol c) = df.getCol c := by
  obtain ⟨d0, s0⟩ := st
  have hd : d0 = some df := h1
  subst hd
  by_cases hmem : "Date" ∈ df.columns
  · rw [create_temporal_analysis_df df s0 hmem]
    simp only [Option.some_bind]
    rw [setCol_getCol_ne _ "Date_Only" c _ hc2]
    exact setCol_getCol_ne df "Date" c _ hc1
  · simp [TelegramAnalysisDashboard.create_temporal_analysis, hmem]

/-! ### Claim C1: atomicity of the data loader -/

/-- C1, amended. The loader returns success exactly when both inputs parse.
On failure of the CSV itself nothing is assigned; but when the CSV parses
and the JSON then fails, the loader has already overwritten `self.df`, so
the state is not left unchanged (only the summary document is). Both loader
classes behave identically. -/
theorem load_data_failure_semantics (st : GenState) (d : DataFrame)
    (sd : SummaryDocument) (js : Option SummaryDocument) :
    StaticDashboardGenerator.load_data st none js = (st, false) ∧
    StaticDashboardGenerator.load_data st (some d) none
      = ({ st with df := some d }, false) ∧
    StaticDashboardGenerator.load_data st (some d) (some sd)
      = ({ st with df := some d, summary_data := some sd }, true) ∧
    TelegramAnalysisDashboard.load_data st none js = (st, false) ∧
    TelegramAnalysisDashboard.load_data st (some d) none
      = ({ st with df := some d }, false) ∧
    TelegramAnalysisDashboard.load_data st (some d) (some sd)
      = ({ st with df := some d, summary_data := some sd }, true) :=
  ⟨rfl, rfl, rfl, rfl, rfl, rfl⟩

/-- C1, counterexample to the claim as stated: starting from the fresh state,
a load whose CSV parses and whose JSON fails returns failure yet leaves the
loader state changed (the record collection now holds the parsed CSV). -/
theorem load_data_failure_mutates_state :
    (StaticDashboardGenerator.load_data ⟨none, none⟩ (some dfViewsOnly) none).2 = false ∧
    (StaticDashboardGenerator.load_data ⟨none, none⟩ (some dfViewsOnly) none).1
      ≠ (⟨none, none⟩ : GenState) := by
  exact ⟨rfl, by decide⟩

/-! ### Claim C2: behaviour of builders on missing optional keys -/

theorem create_engagement_chart_summary_blind (d : Option DataFrame)
    (s1 s2 : Option SummaryDocument) :
    (StaticDashboardGenerator.create_engagement_chart ⟨d, s1⟩).2
      = (StaticDashboardGenerator.create_engagement_chart ⟨d, s2⟩).2 := by
  cases d <;> rfl

theorem create_timeline_chart_summary_blind (d : Option DataFrame)
    (s1 s2 : Option SummaryDocument) :
    (StaticDashboardGenerator.create_timeline_chart ⟨d, s1⟩).2
      = (StaticDashboardGenerator.create_timeline_chart ⟨d, s2⟩).2 := by
  cases d with
  | none => rfl
  | some df =>
    by_cases h : "Date" ∈ df.columns <;>
      simp [StaticDashboardGenerator.create_timeline_chart, h]

theorem create_views_chart_summary_blind (d : Option DataFrame)
    (s1 s2 : Option SummaryDocument) :
    (StaticDashboardGenerator.create_views_distribution_chart ⟨d, s1⟩).2
      = (StaticDashboardGenerator.create_views_distribution_chart ⟨d, s2⟩).2 := by
  cases d <;> rfl

theorem create_overview_chart_congr (d : Option DataFrame)
    (s1 s2 : SummaryDocument) (h1 : s1.analysis_summary = s2.analysis_summary)
    (h2 : s1.engagement_analysis = s2.engagement_analysis) :
    (StaticDashboardGenerator.create_overview_chart ⟨d, some s1⟩).2
      = (StaticDashboardGenerator.create_overview_chart ⟨d, some s2⟩).2 := by
  simp only [StaticDashboardGenerator.create_overview_chart, h1, h2]

theorem create_category_chart_congr (d : Option DataFrame)
    (s1 s2 : SummaryDocument)
    (h : s1.category_distribution = s2.category_distribution) :
    (StaticDashboardGenerator.create_category_chart ⟨d, some s1⟩).2
      = (StaticDashboardGenerator.create_category_chart ⟨d, some s2⟩).2 := by
  simp only [StaticDashboardGenerator.create_category_chart, h]
  cases s2.category_distribution <;> rfl

theorem create_subcategory_chart_congr (d : Option DataFrame)
    (s1 s2 : SummaryDocument)
    (h : s1.subcategory_distribution = s2.subcategory_distribution) :
    (StaticDashboardGenerator.create_subcategory_chart ⟨d, some s1⟩).2
      = (StaticDashboardGenerator.create_subcategory_chart ⟨d, some s2⟩).2 := by
  simp only [StaticDashboardGenerator.create_subcategory_chart, h]
  cases s2.subcategory_distribution <;> rfl

theorem create_intensity_chart_congr (d : Option DataFrame)
    (s1 s2 : SummaryDocument)
    (h : s1.intensity_distribution = s2.intensity_distribution) :
    (StaticDashboardGenerator.create_intensity_chart ⟨d, some s1⟩).2
      = (StaticDashboardGenerator.create_intensity_chart ⟨d, some s2⟩).2 := by
  simp only [StaticDashboardGenerator.create_intensity_chart, h]
  cases s2.intensity_distribution <;> rfl

theorem create_linguistic_chart_congr (d : Option DataFrame)
    (s1 s2 : SummaryDocument)
    (h : s1.top_linguistic_markers = s2.top_linguistic_markers) :
    (StaticDashboardGenerator.create_linguistic_markers_chart ⟨d, some s1⟩).2
      = (StaticDashboardGenerator.create_linguistic_markers_chart ⟨d, some s2⟩).2 := by
  simp only [StaticDashboardGenerator.create_linguistic_markers_chart, h]
  cases s2.top_linguistic_markers <;> rfl

theorem create_media_chart_congr (d : Option DataFrame)
    (s1 s2 : SummaryDocument)
    (h1 : s1.content_with_media = s2.content_with_media)
    (h2 : s1.analysis_summary = s2.analysis_summary) :
    (StaticDashboardGenerator.create_media_chart ⟨d, some s1⟩).2
      = (StaticDashboardGenerator.create_media_chart ⟨d, some s2⟩).2 := by
  simp only [StaticDashboardGenerator.create_media_chart, h1, h2]

/-- C2, amended. For the four guarded keys (category, subcategory and
intensity distributions, linguistic markers) the corresponding builder
returns the empty result when its key is absent, and removing any one of
the six optional keys leaves every other builder output unchanged. The
media builder, however, does not return an empty result when
`content_with_media` is absent: it substitutes 0 and still renders a full
pie chart; and no static builder reads `media_distribution` at all. -/
theorem missing_optional_key_builders (d : Option DataFrame)
    (sd : SummaryDocument) (s1 s2 : Option SummaryDocument) :
    (StaticDashboardGenerator.create_category_chart
      ⟨d, some { sd with category_distribution := none }⟩).2 = Chart.empty ∧
    (StaticDashboardGenerator.create_subcategory_chart
      ⟨d, some { sd with subcategory_distribution := none }⟩).2 = Chart.empty ∧
    (StaticDashboardGenerator.create_intensity_chart
      ⟨d, some { sd with intensity_distribution := none }⟩).2 = Chart.empty ∧
    (StaticDashboardGenerator.create_linguistic_markers_chart
      ⟨d, some { sd with top_linguistic_markers := none }⟩).2 = Chart.empty ∧
    (StaticDashboardGenerator.create_media_chart
      ⟨d, some { sd with content_with_media := none }⟩).2
      = Chart.pie [0, (sd.analysis_summary.relevant_messages_found : Int)]
          ["With Media", "Text Only"] "📸 Media Content Distribution" ∧
    ((StaticDashboardGenerator.create_engagement_chart ⟨d, s1⟩).2
      = (StaticDashboardGenerator.create_engagement_chart ⟨d, s2⟩).2) ∧
    ((StaticDashboardGenerator.create_timeline_chart ⟨d, s1⟩).2
      = (StaticDashboardGenerator.create_timeline_chart ⟨d, s2⟩).2) ∧
    ((StaticDashboardGenerator.create_views_distribution_chart ⟨d, s1⟩).2
      = (StaticDashboardGenerator.create_views_distribution_chart ⟨d, s2⟩).2) ∧
    ((StaticDashboardGenerator.create_overview_chart
        ⟨d, some { sd with category_distribution := none }⟩).2
      = (StaticDashboardGenerator.create_overview_chart ⟨d, some sd⟩).2) ∧
    ((StaticDashboardGenerator.create_subcategory_chart
        ⟨d, some { sd with category_distribution := none }⟩).2
      = (StaticDashboardGenerator.create_subcategory_chart ⟨d, some sd⟩).2) ∧
    ((StaticDashboardGenerator.create_intensity_chart
        ⟨d, some { sd with category_distribution := none }⟩).2
      = (StaticDashboardGenerator.create_intensity_chart ⟨d, some sd⟩).2) ∧
    ((StaticDashboardGenerator.create_linguistic_markers_chart
        ⟨d, some { sd with category_distribution := none }⟩).2
      = (StaticDashboardGenerator.create_linguistic_markers_chart ⟨d, some sd⟩).2) ∧
    ((StaticDashboardGenerator.create_media_chart
        ⟨d, some { sd with category_distribution := none }⟩).2
      = (StaticDashboardGenerator.create_media_chart ⟨d, some sd⟩).2) ∧
    ((StaticDashboardGenerator.create_overview_chart
        ⟨d, some { sd with subcategory_distribution := none }⟩).2
      = (StaticDashboardGenerator.create_overview_chart ⟨d, some sd⟩).2) ∧
    ((StaticDashboardGenerator.create_category_chart
        ⟨d, some { sd with subcategory_distribution := none }⟩).2
      = (StaticDashboardGenerator.create_category_chart ⟨d, some sd⟩).2) ∧
    ((StaticDashboardGenerator.create_intensity_chart
        ⟨d, some { sd with subcategory_distribution := none }⟩).2
      = (StaticDashboardGenerator.create_intensity_chart ⟨d, some sd⟩).2) ∧
    ((StaticDashboardGenerator.create_linguistic_markers_chart
        ⟨d, some { sd with subcategory_distribution := none }⟩).2
      = (StaticDashboardGenerator.create_linguistic_markers_chart ⟨d, some sd⟩).2) ∧
    ((StaticDashboardGenerator.create_media_chart
        ⟨d, some { sd with subcategory_distribution := none }⟩).2
      = (StaticDashboardGenerator.create_media_chart ⟨d, some sd⟩).2) ∧
    ((StaticDashboardGenerator.create_overview_chart
        ⟨d, some { sd with intensity_distribution := none }⟩).2
      = (StaticDashboardGenerator.create_overview_chart ⟨d, some sd⟩).2) ∧
    ((StaticDashboardGenerator.create_category_chart
        ⟨d, some { sd with intensity_distribution := none }⟩).2
      = (StaticDashboardGenerator.create_category_chart ⟨d, some sd⟩).2) ∧
    ((StaticDashboardGenerator.create_subcategory_chart
        ⟨d, some { sd with intensity_distribution := none }⟩).2
      = (StaticDashboardGenerator.create_subcategory_chart ⟨d, some sd⟩).2) ∧
    ((StaticDashboardGenerator.create_linguistic_markers_chart
        ⟨d, some { sd with intensity_distribution := none }⟩).2
      = (StaticDashboardGenerator.create_linguistic_markers_chart ⟨d, some sd⟩).2) ∧
    ((StaticDashboardGenerator.create_media_chart
        ⟨d, some { sd with intensity_distribution := none }⟩).2
      = (StaticDashboardGenerator.create_media_chart ⟨d, some sd⟩).2) ∧
    ((StaticDashboardGenerator.create_overview_chart
        ⟨d, some { sd with top_linguistic_markers := none }⟩).2
      = (StaticDashboardGenerator.create_overview_chart ⟨d, some sd⟩).2) ∧
    ((StaticDashboardGenerator.create_category_chart
        ⟨d, some { sd with top_linguistic_markers := none }⟩).2
      = (StaticDashboardGenerator.create_category_chart ⟨d, some sd⟩).2) ∧
    ((StaticDashboardGenerator.create_subcategory_chart
        ⟨d, some { sd with top_linguistic_markers := none }⟩).2
      = (StaticDashboardGenerator.create_subcategory_chart ⟨d, some sd⟩).2) ∧
    ((StaticDashboardGenerator.create_intensity_chart
        ⟨d, some { sd with top_linguistic_markers := none }⟩).2
      = (StaticDashboardGenerator.create_intensity_chart ⟨d, some sd⟩).2) ∧
    ((StaticDashboardGenerator.create_media_chart
        ⟨d, some { sd with top_linguistic_markers := none }⟩).2
      = (StaticDashboardGenerator.create_media_chart ⟨d, some sd⟩).2) ∧
    ((StaticDashboardGenerator.create_overview_chart
        ⟨d, some { sd with content_with_media := none }⟩).2
      = (StaticDashboardGenerator.create_overview_chart ⟨d, some sd⟩).2) ∧
    ((StaticDashboardGenerator.create_category_chart
        ⟨d, some { sd with content_with_media := none }⟩).2
      = (StaticDashboardGenerator.create_category_chart ⟨d, some sd⟩).2) ∧
    ((StaticDashboardGenerator.create_subcategory_chart
        ⟨d, some { sd with content_with_media := none }⟩).2
      = (StaticDashboardGenerator.create_subcategory_chart ⟨d, some sd⟩).2) ∧
    ((StaticDashboardGenerator.create_intensity_chart
        ⟨d, some { sd with content_with_media := none }⟩).2
      = (StaticDashboardGenerator.create_intensity_chart ⟨d, some sd⟩).2) ∧
    ((StaticDashboardGenerator.create_linguistic_markers_chart
        ⟨d, some { sd with content_with_media := none }⟩).2
      = (StaticDashboardGenerator.create_linguistic_markers_chart ⟨d, some sd⟩).2) ∧
    ((StaticDashboardGenerator.create_overview_chart
        ⟨d, some { sd with media_distribution := none }⟩).2
      = (StaticDashboardGenerator.create_overview_chart ⟨d, some sd⟩).2) ∧
    ((StaticDashboardGenerator.create_category_chart
        ⟨d, some { sd with media_distribution := none }⟩).2
      = (StaticDashboardGenerator.create_category_chart ⟨d, some sd⟩).2) ∧
    ((StaticDashboardGenerator.create_subcategory_chart
        ⟨d, some { sd with media_distribution := none }⟩).2
      = (StaticDashboardGenerator.create_subcategory_chart ⟨d, some sd⟩).2) ∧
    ((StaticDashboardGenerator.create_intensity_chart
        ⟨d, some { sd with media_distribution := none }⟩).2
      = (StaticDashboardGenerator.create_intensity_chart ⟨d, some sd⟩).2) ∧
    ((StaticDashboardGenerator.create_linguistic_markers_chart
        ⟨d, some { sd with media_distribution := none }⟩).2
      = (StaticDashboardGenerator.create_linguistic_markers_chart ⟨d, some sd⟩).2) ∧
    ((StaticDashboardGenerator.create_media_chart
        ⟨d, some { sd with media_distribution := none }⟩).2
      = (StaticDashboardGenerator.create_media_chart ⟨d, some sd⟩).2) := by
  refine ⟨rfl, rfl, rfl, rfl, ?_, create_engagement_chart_summary_blind d s1 s2,
    create_timeline_chart_summary_blind d s1 s2,
    create_views_chart_summary_blind d s1 s2,
    create_overview_chart_congr d _ _ rfl rfl,
    create_subcategory_chart_congr d _ _ rfl,
    create_intensity_chart_congr d _ _ rfl,
    create_linguistic_chart_congr d _ _ rfl,
    create_media_chart_congr d _ _ rfl rfl,
    create_overview_chart_congr d _ _ rfl rfl,
    create_category_chart_congr d _ _ rfl,
    create_intensity_chart_congr d _ _ rfl,
    create_linguistic_chart_congr d _ _ rfl,
    create_media_chart_congr d _ _ rfl rfl,
    create_overview_chart_congr d _ _ rfl rfl,
    create_category_chart_congr d _ _ rfl,
    create_subcategory_chart_congr d _ _ rfl,
    create_linguistic_chart_congr d _ _ rfl,
    create_media_chart_congr d _ _ rfl rfl,
    create_overview_chart_congr d _ _ rfl rfl,
    create_category_chart_congr d _ _ rfl,
    create_subcategory_chart_congr d _ _ rfl,
    create_intensity_chart_congr d _ _ rfl,
    create_media_chart_congr d _ _ rfl rfl,
    create_overview_chart_congr d _ _ rfl rfl,
    create_category_chart_congr d _ _ rfl,
    create_subcategory_chart_congr d _ _ rfl,
    create_intensity_chart_congr d _ _ rfl,
    create_linguistic_chart_congr d _ _ rfl,
    create_overview_chart_congr d _ _ rfl rfl,
    create_category_chart_congr d _ _ rfl,
    create_subcategory_chart_congr d _ _ rfl,
    create_intensity_chart_congr d _ _ rfl,
    create_linguistic_chart_congr d _ _ rfl,
    create_media_chart_congr d _ _ rfl rfl⟩
  show Chart.pie [(0 : Int),
      ((sd.analysis_summary.relevant_messages_found : Nat) : Int) - (0 : Int)] _ _ = _
  rw [sub_zero]

/-- C2, counterexample to the claim as stated: on a document that lacks
`content_with_media`, the media builder returns a full pie chart, not an
empty result. -/
theorem media_chart_absent_key_not_empty :
    (StaticDashboardGenerator.create_media_chart
        ⟨none, some { baseDoc with
          analysis_summary :=
            { total_messages_analyzed := 12000
              relevant_messages_found := 1315
              relevance_rate := 10.96 } }⟩).2
      = Chart.pie [0, 1315] ["With Media", "Text Only"]
          "📸 Media Content Distribution" ∧
    (StaticDashboardGenerator.create_media_chart
        ⟨none, some { baseDoc with
          analysis_summary :=
            { total_messages_analyzed := 12000
              relevant_messages_found := 1315
              relevance_rate := 10.96 } }⟩).2 ≠ Chart.empty := by
  exact ⟨by decide, by decide⟩


/-! ### Claim C3: ranked top-N builders take the first N entries -/

/-- C3. The subcategory builder charts exactly the first 10 entries of
`subcategory_distribution` and the marker builder exactly the first 15
entries of `top_linguistic_markers`, in input order, with no re-sorting;
in particular a 20 entry marker mapping yields exactly its first 15
entries in input order. -/
theorem topN_builders_take_first_entries (d : Option DataFrame)
    (sd : SummaryDocument) (l : Dist) :
    (StaticDashboardGenerator.create_subcategory_chart
        ⟨d, some { sd with subcategory_distribution := some l }⟩).2
      = Chart.barH ((l.take 10).map (fun p => (p.2 : Int)))
          ((l.take 10).map Prod.fst) "🔍 Top 10 Subcategories" ∧
    (StaticDashboardGenerator.create_linguistic_markers_chart
        ⟨d, some { sd with top_linguistic_markers := some l }⟩).2
      = Chart.barH ((l.take 15).map (fun p => (p.2 : Int)))
          ((l.take 15).map Prod.fst) "💬 Top 15 Linguistic Markers" ∧
    (StaticDashboardGenerator.create_linguistic_markers_chart
        ⟨none, some { baseDoc with top_linguistic_markers := some markers20 }⟩).2
      = Chart.barH [20, 19, 18, 17, 16, 15, 14, 13, 12, 11, 10, 9, 8, 7, 6]
          ["m01", "m02", "m03", "m04", "m05", "m06", "m07", "m08", "m09",
           "m10", "m11", "m12", "m13", "m14", "m15"]
          "💬 Top 15 Linguistic Markers" := by
  exact ⟨rfl, rfl, by decide⟩

/-! ### Claim C4: ordering of the intensity chart -/

/-- C4, amended. Both intensity builders present one bar per level key,
labelled `Level k` and paired with the count of `k`, with the keys sorted
ascending in lexicographic string order (the order Python `sorted` gives
the JSON string keys) - not by numeric value. The sorted key list is a
permutation of the keys and is pairwise ordered under `strLe`. -/
theorem intensity_levels_lexicographic (d : Option DataFrame)
    (sd : SummaryDocument) (l : Dist) :
    (StaticDashboardGenerator.create_intensity_chart
        ⟨d, some { sd with intensity_distribution := some l }⟩).2
      = Chart.bar
          ((sortLe strLe (l.map Prod.fst)).map (fun k => "Level " ++ k))
          ((sortLe strLe (l.map Prod.fst)).map
            (fun k => (((l.lookup k).getD 0 : Nat) : Int)))
          "⚡ Message Intensity Distribution" ∧
    (sortLe strLe (l.map Prod.fst)).Perm (l.map Prod.fst) ∧
    (sortLe strLe (l.map Prod.fst)).Pairwise (fun a b => strLe a b = true) ∧
    (TelegramAnalysisDashboard.create_intensity_analysis
        ⟨d, some { sd with intensity_distribution := some l }⟩).2
      = [Chart.bar
          ((sortLe strLe (l.map Prod.fst)).map (fun k => "Level " ++ k))
          ((sortLe strLe (l.map Prod.fst)).map
            (fun k => (((l.lookup k).getD 0 : Nat) : Int)))
          "Message Intensity Distribution"] :=
  ⟨rfl, sortLe_perm strLe (l.map Prod.fst),
    sortLe_pairwise strLe strLe_total strLe_trans (l.map Prod.fst), rfl⟩

/-- C4, counterexample to the claim as stated: on the mapping with keys
"2" and "10" the builder presents Level 10 before Level 2, while the
numeric ascending order the claim demands puts Level 2 first. -/
theorem intensity_levels_not_numeric_sorted :
    (StaticDashboardGenerator.create_intensity_chart
        ⟨none, some { baseDoc with intensity_distribution := some intensityTwoTen }⟩).2
      = Chart.bar ["Level 10", "Level 2"] [7, 5]
          "⚡ Message Intensity Distribution" ∧
    (numericLevelSort (intensityTwoTen.map Prod.fst)).map (fun k => "Level " ++ k)
      = ["Level 2", "Level 10"] ∧
    (["Level 10", "Level 2"] : List String) ≠ ["Level 2", "Level 10"] := by
  exact ⟨by decide, by decide, by decide⟩

/-! ### Claim C5: frame effects of the chart builders -/

/-- C5, amended. No builder mutates the summary document, and every
builder except the two date based ones leaves the whole state unchanged.
The static timeline builder preserves the column names and every column
other than Date; it leaves the state fully unchanged when the Date column
is already datetime typed, but replaces a non datetime Date column with
its datetime conversion. The interactive temporal builder preserves every
column other than Date and the derived Date_Only column it writes. -/
theorem builders_frame_effects (st : GenState) :
    (StaticDashboardGenerator.create_overview_chart st).1 = st ∧
    (StaticDashboardGenerator.create_category_chart st).1 = st ∧
    (StaticDashboardGenerator.create_subcategory_chart st).1 = st ∧
    (StaticDashboardGenerator.create_intensity_chart st).1 = st ∧
    (StaticDashboardGenerator.create_linguistic_markers_chart st).1 = st ∧
    (StaticDashboardGenerator.create_engagement_chart st).1 = st ∧
    (StaticDashboardGenerator.create_media_chart st).1 = st ∧
    (StaticDashboardGenerator.create_views_distribution_chart st).1 = st ∧
    (TelegramAnalysisDashboard.create_category_distribution st).1 = st ∧
    (TelegramAnalysisDashboard.create_intensity_analysis st).1 = st ∧
    (StaticDashboardGenerator.create_timeline_chart st).1.summary_data
      = st.summary_data ∧
    (TelegramAnalysisDashboard.create_temporal_analysis st).1.summary_data
      = st.summary_data ∧
    (∀ df dc, st.df = some df → df.getCol "Date" = some dc →
      isDatetimeAnyDtype dc = true →
      StaticDashboardGenerator.create_timeline_chart st
        = (st, Chart.line (dailyCounts (dc.map cellDateStr))
            "📅 Daily Message Volume Timeline")) ∧
    (∀ df dc, st.df = some df → df.getCol "Date" = some dc →
      isDatetimeAnyDtype dc = false →
      (StaticDashboardGenerator.create_timeline_chart st).1.df
        = some (df.setCol "Date" (toDatetime dc))) ∧
    (∀ df, st.df = some df →
      (StaticDashboardGenerator.create_timeline_chart st).1.df.map
        DataFrame.columns = some df.columns) ∧
    (∀ df c, st.df = some df → c ≠ "Date" →
      ((StaticDashboardGenerator.create_timeline_chart st).1.df.bind
        fun x => x.getCol c) = df.getCol c) ∧
    (∀ df c, st.df = some df → c ≠ "Date" → c ≠ "Date_Only" →
      ((TelegramAnalysisDashboard.create_temporal_analysis st).1.df.bind
        fun x => x.getCol c) = df.getCol c) := by
  refine ⟨StaticDashboardGenerator.create_overview_chart_state st,
    StaticDashboardGenerator.create_category_chart_state st,
    StaticDashboardGenerator.create_subcategory_chart_state st,
    StaticDashboardGenerator.create_intensity_chart_state st,
    StaticDashboardGenerator.create_linguistic_markers_chart_state st,
    StaticDashboardGenerator.create_engagement_chart_state st,
    StaticDashboardGenerator.create_media_chart_state st,
    StaticDashboardGenerator.create_views_distribution_chart_state st,
    TelegramAnalysisDashboard.create_category_distribution_state st,
    TelegramAnalysisDashboard.create_intensity_analysis_state st,
    StaticDashboardGenerator.create_timeline_chart_state_summary st,
    TelegramAnalysisDashboard.create_temporal_analysis_state_summary st,
    ?_, ?_, ?_, ?_, ?_⟩
  · intro df dc h1 h2 h3
    exact create_timeline_chart_dt st df dc h1 h2 h3
  · intro df dc h1 h2 h3
    rw [create_timeline_chart_convert st df dc h1 h2 h3]
  · intro df h1
    exact create_timeline_chart_columns st df h1
  · intro df c h1 hc
    exact create_timeline_chart_other_cols st df c h1 hc
  · intro df c h1 hc1 hc2
    exact create_temporal_analysis_other_cols st df c h1 hc1 hc2

/-- C5, witness: the frame theorem applied at concrete states, one with a
datetime typed Date column (state unchanged) and one with a raw string
Date column (Date converted, Views column untouched). -/
theorem builders_frame_effects_witness :
    (StaticDashboardGenerator.create_overview_chart
      ⟨some dfDateStr, some baseDoc⟩).1 = ⟨some dfDateStr, some baseDoc⟩ ∧
    StaticDashboardGenerator.create_timeline_chart ⟨some dfDateDt, none⟩
      = (⟨some dfDateDt, none⟩,
         Chart.line (dailyCounts ([Cell.dt "2025-08-01 10:00:00"].map cellDateStr))
           "📅 Daily Message Volume Timeline") ∧
    (StaticDashboardGenerator.create_timeline_chart
        ⟨some dfDateStr, some baseDoc⟩).1.df
      = some (dfDateStr.setCol "Date" (toDatetime [Cell.str "2025-08-01 10:00:00"])) ∧
    ((StaticDashboardGenerator.create_timeline_chart
        ⟨some dfDateStr, some baseDoc⟩).1.df.bind
      fun x => x.getCol "Views") = dfDateStr.getCol "Views" := by
  obtain ⟨a1, -, -, -, -, -, -, -, -, -, -, -, -, a14, -, a16, -⟩ :=
    builders_frame_effects ⟨some dfDateStr, some baseDoc⟩
  obtain ⟨-, -, -, -, -, -, -, -, -, -, -, -, b13, -, -, -, -⟩ :=
    builders_frame_effects ⟨some dfDateDt, none⟩
  exact ⟨a1, b13 dfDateDt [Cell.dt "2025-08-01 10:00:00"] rfl (by decide) (by decide),
    a14 dfDateStr [Cell.str "2025-08-01 10:00:00"] rfl (by decide) (by decide),
    a16 dfDateStr "Views" rfl (by decide)⟩

/-- C5, counterexample to the claim as stated: running the timeline builder
on a loaded state whose Date column holds raw strings changes the stored
DataFrame, so the record collection is not read-only. -/
theorem timeline_chart_mutates_date_column :
    (StaticDashboardGenerator.create_timeline_chart
        ⟨some dfDateStr, some baseDoc⟩).1
      ≠ (⟨some dfDateStr, some baseDoc⟩ : GenState) := by
  decide

/-! ### Claim C6: the media chart derives the text only slice -/

/-- C6. The media builder derives the second pie slice, named Text Only,
as `relevant_messages_found` minus `content_with_media`; at the spec test
vector of 700 media messages out of 1315 relevant ones, the slice is 615. -/
theorem media_chart_text_only_slice (d : Option DataFrame)
    (sd : SummaryDocument) (m : Nat) :
    (StaticDashboardGenerator.create_media_chart
        ⟨d, some { sd with content_with_media := some m }⟩).2
      = Chart.pie
          [(m : Int), (sd.analysis_summary.relevant_messages_found : Int) - (m : Int)]
          ["With Media", "Text Only"] "📸 Media Content Distribution" ∧
    (StaticDashboardGenerator.create_media_chart ⟨none, some mediaDoc700⟩).2
      = Chart.pie [700, 615] ["With Media", "Text Only"]
          "📸 Media Content Distribution" := by
  exact ⟨rfl, by decide⟩

/-! ### Claim C7: the timeline builder on a frame without a Date column -/

/-- C7. When the loaded record collection has no Date column, the timeline
builder returns the empty result and the state unchanged (in particular it
does not raise: the embedding is a total function). -/
theorem timeline_chart_missing_date_empty (st : GenState) (df : DataFrame)
    (h1 : st.df = some df) (h2 : "Date" ∉ df.columns) :
    StaticDashboardGenerator.create_timeline_chart st = (st, Chart.empty) := by
  obtain ⟨d0, s0⟩ := st
  have hd : d0 = some df := h1
  subst hd
  simp [StaticDashboardGenerator.create_timeline_chart, h2]

/-- C7, witness at a concrete one column frame without a Date column. -/
theorem timeline_chart_missing_date_empty_witness :
    ("Date" ∉ dfViewsOnly.columns) ∧
    StaticDashboardGenerator.create_timeline_chart ⟨some dfViewsOnly, none⟩
      = (⟨some dfViewsOnly, none⟩, Chart.empty) :=
  ⟨by decide,
    timeline_chart_missing_date_empty ⟨some dfViewsOnly, none⟩ dfViewsOnly rfl
      (by decide)⟩

/-! ### Claim C8: sample data round trip through the report -/

/-- C8. Generating the dashboard in sample mode always succeeds, and the
resulting report carries the four overview metrics with the fixed demo
constants: 12000 total messages, 1315 relevant messages, relevance rate
10.96 and 1129 viral messages - whatever frame the synthetic row generator
produced and whatever the real file inputs were. -/
theorem sample_dashboard_overview_metrics (st : GenState) (gen : DataFrame)
    (csv : Option DataFrame) (js : Option SummaryDocument) :
    (StaticDashboardGenerator.generate_html_dashboard st gen true csv js).map
        (fun r => (r.total_messages_analyzed, r.relevant_messages_found,
          r.viral_messages, r.relevance_rate))
      = some (12000, 1315, 1129, (10.96 : ℚ)) := by
  simp only [StaticDashboardGenerator.generate_html_dashboard,
    StaticDashboardGenerator.load_sample_data]
  rw [StaticDashboardGenerator.create_views_distribution_chart_state,
    StaticDashboardGenerator.create_timeline_chart_state_summary,
    StaticDashboardGenerator.create_media_chart_state,
    StaticDashboardGenerator.create_engagement_chart_state,
    StaticDashboardGenerator.create_linguistic_markers_chart_state,
    StaticDashboardGenerator.create_intensity_chart_state,
    StaticDashboardGenerator.create_subcategory_chart_state,
    StaticDashboardGenerator.create_category_chart_state,
    StaticDashboardGenerator.create_overview_chart_state]
  rfl

/-! ### Claim C9: the category chart on the two category test vector -/

/-- C9. On `category_distribution = [("A", 3), ("B", 1)]` the static pie
builder and the interactive pie and bar builders chart exactly the two
categories A and B, whose values sum to 4. -/
theorem category_chart_two_categories (d : Option DataFrame)
    (sd : SummaryDocument) :
    (StaticDashboardGenerator.create_category_chart
        ⟨d, some { sd with category_distribution := some catAB }⟩).2
      = Chart.pie [3, 1] ["A", "B"]
          "📈 Anti-Gender Content Categories Distribution" ∧
    ([3, 1] : List Int).sum = 4 ∧
    (["A", "B"] : List String).length = 2 ∧
    (TelegramAnalysisDashboard.create_category_distribution
        ⟨d, some { sd with category_distribution := some catAB }⟩).2
      = [Chart.pie [3, 1] ["A", "B"]
          "Distribution of Anti-Gender Content Categories",
         Chart.bar ["A", "B"] [3, 1] "Message Count by Category"] := by
  exact ⟨rfl, by decide, by decide, rfl⟩

/-! ### Claim C10: every static builder is total before any load -/

/-- C10. Before any data is loaded, every chart builder of the static
generator returns the empty result: the six summary based builders when
the summary document is absent, and the three frame based builders when
the record DataFrame is absent. -/
theorem builders_total_before_load (d : Option DataFrame)
    (s : Option SummaryDocument) :
    (StaticDashboardGenerator.create_overview_chart ⟨d, none⟩).2 = Chart.empty ∧
    (StaticDashboardGenerator.create_category_chart ⟨d, none⟩).2 = Chart.empty ∧
    (StaticDashboardGenerator.create_subcategory_chart ⟨d, none⟩).2 = Chart.empty ∧
    (StaticDashboardGenerator.create_intensity_chart ⟨d, none⟩).2 = Chart.empty ∧
    (StaticDashboardGenerator.create_linguistic_markers_chart ⟨d, none⟩).2
      = Chart.empty ∧
    (StaticDashboardGenerator.create_media_chart ⟨d, none⟩).2 = Chart.empty ∧
    (StaticDashboardGenerator.create_engagement_chart ⟨none, s⟩).2 = Chart.empty ∧
    (StaticDashboardGenerator.create_timeline_chart ⟨none, s⟩).2 = Chart.empty ∧
    (StaticDashboardGenerator.create_views_distribution_chart ⟨none, s⟩).2
      = Chart.empty :=
  ⟨rfl, rfl, rfl, rfl, rfl, rfl, rfl, rfl, rfl⟩

end ProjectTelo
